import Mathlib

/-!
Verification development for the supermarket data-hub frontend
(QueryView query-session logic in the frontend README, App.jsx's
conversation store, and ControlPanel.jsx's job triggers and health
polling).

The JavaScript source is shallowly embedded:
* JSON scalar cell values become the inductive `CellValue`
  (JSON has no `undefined`, so absent / null cells are `CellValue.null`);
* JS numbers are modelled as rationals;
* the possibly-throwing date formatting of the date-fns `format` call is
  modelled with `Except`, and the surrounding `try`/`catch` with
  `tryCatchE`;
* `axios` call outcomes (resolved 2xx payload vs. rejected promise on a
  network error, a non-2xx response, or a payload whose field access
  throws) become the inductive `Outcome`;
* React `useState` setters become explicit state passing on record
  types; functional updates (`prev => ...`) read the state current at
  the moment the callback runs;
* `setTimeout` becomes an explicit list of pending timers plus a virtual
  millisecond clock, with `advanceCP` firing every due timer;
* JS string builtins that the code relies on (`trim`, `toFixed(2)`,
  truthiness of `a || b`) are modelled by structurally recursive Lean
  functions (`jsTrim`, `jsToFixed2`, `jsOr`).
-/

/-- A JSON scalar cell value as delivered in a query response row
(QueryView, the elements of the rows of `item.data`): number, string,
or null. -/
inductive CellValue where
  | num  (q : ℚ)
  | str  (s : String)
  | null
  deriving DecidableEq, Repr

/-- Is a cell a JS number (`typeof cell === 'number'`)? -/
def CellValue.isNum : CellValue → Bool
  | .num _ => true
  | _ => false

/-- Abstract model of ECMAScript ToString applied to a number; no claim
depends on its exact digits, only on it being some string. -/
def jsNumToString (q : ℚ) : String := toString q

/-- ECMAScript `String(cell)` for a scalar. -/
def jsString : CellValue → String
  | .num q => jsNumToString q
  | .str s => s
  | .null => "null"

/-- Zero-pad a natural below 100 to two digits (the fractional block of
a `toFixed(2)` rendering). -/
def pad2 (m : ℕ) : String :=
  if m < 10 then "0" ++ toString m else toString m

/-- Integer part of the `toFixed(2)` rendering of a nonnegative rational. -/
def toFixed2IntPart (q : ℚ) : String :=
  toString ((round (q * 100) : ℤ).toNat / 100)

/-- Fractional two digits of the `toFixed(2)` rendering of a
nonnegative rational. -/
def toFixed2Frac (q : ℚ) : String :=
  pad2 ((round (q * 100) : ℤ).toNat % 100)

/-- ECMAScript ToString applied to an integer of 22 or more decimal
digits, as produced by the `x ≥ 10^21` branch of `toFixed`: exponential
notation — the significant digits (trailing zeros stripped), a dot
after the first digit when more than one remains, then `e+` and the
decimal exponent. For example ToString(10^21) is "1e+21". -/
def jsExpNotation (n : ℕ) : String :=
  let digits := Nat.repr n
  let stripped := (digits.data.reverse.dropWhile (fun c => c == '0')).reverse
  let e := digits.length - 1
  if stripped.length = 1 then ⟨stripped⟩ ++ "e+" ++ Nat.repr e
  else ⟨stripped.take 1⟩ ++ "." ++ ⟨stripped.drop 1⟩ ++ "e+" ++ Nat.repr e

/-- `toFixed(2)` on a nonnegative magnitude, per the ECMAScript
algorithm: when the magnitude is at least 10^21 the result is
ToString(x) — exponential notation, no fractional digits; below that,
round to the nearest multiple of 1/100 (ties to the larger candidate)
and render integer part, a dot, and exactly two fractional digits.
Every IEEE double of magnitude at least 10^21 is an integer (that bound
exceeds 2^53), so the large branch takes the value's floor. -/
def jsToFixed2Pos (q : ℚ) : String :=
  if 10 ^ 21 ≤ q then jsExpNotation (Int.floor q).toNat
  else toFixed2IntPart q ++ "." ++ toFixed2Frac q

/-- Model of ECMAScript `Number.prototype.toFixed(2)`: strip the sign,
then render the magnitude via `jsToFixed2Pos`. -/
def jsToFixed2 (q : ℚ) : String :=
  if q < 0 then "-" ++ jsToFixed2Pos (-q) else jsToFixed2Pos q

/-- The recognized price columns:
`['ItemPrice', 'price', 'ItemPrice'].includes(colName)`. -/
def isPriceCol (colName : String) : Bool :=
  colName = "ItemPrice" || colName = "price" || colName = "ItemPrice"

/-- The recognized timestamp columns:
`['LastUpdate', 'last_update'].includes(colName)`. -/
def isDateCol (colName : String) : Bool :=
  colName = "LastUpdate" || colName = "last_update"

/-- A parsed calendar timestamp (the value of a successful
`new Date(cell)`). -/
structure DateTime where
  year : ℕ
  month : ℕ
  day : ℕ
  hour : ℕ
  minute : ℕ
  deriving DecidableEq, Repr

/-- Zero-pad a natural to at least two digits. -/
def zp2 (n : ℕ) : String :=
  if n < 10 then "0" ++ toString n else toString n

/-- Zero-pad a natural to at least four digits (the yyyy field). -/
def zp4 (n : ℕ) : String :=
  if n < 10 then "000" ++ toString n
  else if n < 100 then "00" ++ toString n
  else if n < 1000 then "0" ++ toString n
  else toString n

/-- date-fns `format(date, 'dd/MM/yyyy HH:mm')`: throws a RangeError on
an invalid date, i.e. when `new Date(cell)` failed to parse; the throw
is modelled as `Except.error`. -/
def dateFnsFormat : Option DateTime → Except String String
  | none => .error "RangeError: Invalid time value"
  | some d =>
    .ok (zp2 d.day ++ "/" ++ zp2 d.month ++ "/" ++ zp4 d.year ++ " "
         ++ zp2 d.hour ++ ":" ++ zp2 d.minute)

/-- A JS `try`/`catch` over a possibly-throwing computation. -/
def tryCatchE {ε α : Type} (x : Except ε α) (handler : ε → Except ε α) : Except ε α :=
  match x with
  | .ok a => .ok a
  | .error e => handler e

/-- The per-cell rendering expression of QueryView (README lines
212-234), as a possibly-throwing computation: `let cellValue = 'N/A'`;
if the cell is non-null, price columns with numeric cells use
`cell.toFixed(2)`, date columns try
`format(new Date(cell), 'dd/MM/yyyy HH:mm')` with a `catch` falling
back to `String(cell)`, and everything else is `String(cell)`. The JS
runtime's `new Date` parser is the external parameter `pd`. -/
def renderCellE (pd : CellValue → Option DateTime) (cell : CellValue)
    (colName : String) : Except String String :=
  match cell with
  | .null => .ok "N/A"
  | .num q =>
    if isPriceCol colName then .ok (jsToFixed2 q)
    else if isDateCol colName then
      tryCatchE (dateFnsFormat (pd (.num q))) (fun _ => .ok (jsString (.num q)))
    else .ok (jsString (.num q))
  | .str s =>
    if isDateCol colName then
      tryCatchE (dateFnsFormat (pd (.str s))) (fun _ => .ok (jsString (.str s)))
    else .ok (jsString (.str s))

/-- The displayed cell string (the value of `cellValue` put into the
table cell). -/
def renderCell (pd : CellValue → Option DateTime) (cell : CellValue)
    (colName : String) : String :=
  match renderCellE pd cell colName with
  | .ok s => s
  | .error e => e

/-- Role tag of an LLM-facing context turn. -/
inductive Role where
  | user
  | assistant
  deriving DecidableEq, Repr

/-- One LLM-facing context turn (`conversationHistory` element in
App.jsx / QueryView). -/
structure Turn where
  role : Role
  content : String
  deriving DecidableEq, Repr

/-- One UI-facing transcript entry (`history` element): a question, or
an answer whose unset JS fields are `none`. -/
inductive Entry where
  | question (content : String)
  | answer (question : Option String) (sql : Option String)
      (data : Option (List (List CellValue)))
      (columns : Option (List String))
      (error : Option String)
  deriving DecidableEq, Repr

/-- The fields QueryView reads off a resolved `/query` response body
(`response.data`); a field the server omitted is `none`. -/
structure Payload where
  sql : Option String
  data : Option (List (List CellValue))
  columns : Option (List String)
  error : Option String
  deriving DecidableEq, Repr

/-- The fields the catch branches read off a rejected axios promise:
`error.response?.data?.detail` and `error.message`. -/
structure JSErr where
  detail : Option String
  message : Option String
  deriving DecidableEq, Repr

/-- Outcome of an awaited axios call: the promise resolves with a
payload, or rejects (network error, non-2xx response, or a payload
access that throws inside the `try`). -/
inductive Outcome where
  | ok (p : Payload)
  | err (e : JSErr)
  deriving DecidableEq, Repr

/-- The state QueryView and App.jsx own: the controlled input value
`question`, the `loading` flag, the UI transcript `history`, and the
LLM context `conversationHistory`. -/
structure QState where
  question : String
  loading : Bool
  history : List Entry
  conversationHistory : List Turn
  deriving DecidableEq, Repr

/-- Initial state (`useState('')`, `useState(false)`, `useState([])`,
`useState([])`). -/
def initQState : QState := ⟨"", false, [], []⟩

/-- The `/query` request body: `{question, conversation_history}`. -/
structure QueryRequest where
  question : String
  conversation_history : List Turn
  deriving DecidableEq, Repr

/-- JS `a || b` where `a` is an optional string and `b` a string: an
absent or empty string is falsy. -/
def jsOr (a : Option String) (b : String) : String :=
  match a with
  | some s => if s = "" then b else s
  | none => b

/-- The catch-branch message of `handleSubmit`:
`error.response?.data?.detail || error.message || 'Failed to process query'`. -/
def queryErrMsg (e : JSErr) : String :=
  jsOr e.detail (jsOr e.message "Failed to process query")

/-- A JS template-literal splice of a possibly-undefined string. -/
def jsSplice : Option String → String
  | some s => s
  | none => "undefined"

/-- The assistant context turn content:
`` `I searched for: ${userQuestion}. The SQL query was: ${sqlGenerated}` ``. -/
def assistantSummary (userQuestion : String) (sql : Option String) : String :=
  "I searched for: " ++ userQuestion ++ ". The SQL query was: " ++ jsSplice sql

/-- ECMAScript `String.prototype.trim()`, modelled structurally: drop
whitespace from both ends. -/
def jsTrim (s : String) : String :=
  ⟨((s.data.dropWhile Char.isWhitespace).reverse.dropWhile Char.isWhitespace).reverse⟩

/-- First half of `handleSubmit` (README lines 97-112): the
`!question.trim()` guard, then capture `userQuestion`, clear the input,
set `loading`, append the question entry to `history`, and issue the
request carrying the current `conversationHistory` snapshot. Returns
the issued request, or `none` when the guard dropped the submission. -/
def submitBegin (s : QState) : QState × Option QueryRequest :=
  if jsTrim s.question = "" then (s, none)
  else
    ({ s with question := "", loading := true,
              history := s.history ++ [.question s.question] },
     some ⟨s.question, s.conversationHistory⟩)

/-- The transcript entry appended when the awaited request completes:
the success entry carries question, sql, data, columns and the payload's
error field; the catch entry carries only the error message. -/
def answerOf (userQuestion : String) (o : Outcome) : Entry :=
  match o with
  | .ok p => .answer (some userQuestion) p.sql p.data p.columns p.error
  | .err e => .answer none none none none (some (queryErrMsg e))

/-- Second half of `handleSubmit` (README lines 114-140), run when the
awaited request completes against the then-current state: on success
append the answer entry and the user/assistant context pair; on failure
append only the error answer entry; `finally` clear `loading`. -/
def submitComplete (userQuestion : String) (s : QState) (o : Outcome) : QState :=
  match o with
  | .ok p =>
    { s with
      history := s.history ++ [answerOf userQuestion (.ok p)],
      conversationHistory := s.conversationHistory ++
        [⟨.user, userQuestion⟩, ⟨.assistant, assistantSummary userQuestion p.sql⟩],
      loading := false }
  | .err e =>
    { s with history := s.history ++ [answerOf userQuestion (.err e)],
             loading := false }

/-- One whole `handleSubmit` cycle with the given request outcome;
the boolean reports whether a request was actually issued. -/
def handleSubmit (s : QState) (o : Outcome) : QState × Bool :=
  match submitBegin s with
  | (s1, none) => (s1, false)
  | (s1, some req) => (submitComplete req.question s1 o, true)

/-- The user-level submit operation: while `loading` is set, the form's
input and submit button carry `disabled={loading}` (README lines 283 and
285), so no form submission can reach `handleSubmit`; otherwise it is
`handleSubmit`. -/
def submitOp (s : QState) (o : Outcome) : QState × Bool :=
  if s.loading then (s, false) else handleSubmit s o

/-- Typing in the query input (`onChange` setting `question`); the input
is `disabled={loading}`. -/
def typeQuestion (s : QState) (t : String) : QState :=
  if s.loading then s else { s with question := t }

/-- App.jsx `handleNewConversation`: `setHistory([])` and
`setConversationHistory([])`. -/
def handleNewConversation (s : QState) : QState :=
  { s with history := [], conversationHistory := [] }

/-- The session states reachable through the component's operations.
`complete` is applied to an arbitrary reachable state and captured
question, over-approximating the accepted race in which a response
arrives after the state changed (for instance after a reset). -/
inductive ReachQ : QState → Prop where
  | init : ReachQ initQState
  | type (s : QState) (t : String) : ReachQ s → ReachQ (typeQuestion s t)
  | submit (s : QState) (o : Outcome) : ReachQ s → ReachQ (submitOp s o).1
  | complete (q : String) (s : QState) (o : Outcome) :
      ReachQ s → ReachQ (submitComplete q s o)
  | newConv (s : QState) : ReachQ s → ReachQ (handleNewConversation s)

/-- The LLM-facing context consists of consecutive (user, assistant)
pairs. -/
def wellFormedContext : List Turn → Bool
  | [] => true
  | [_] => false
  | u :: a :: rest =>
    decide (u.role = Role.user) && decide (a.role = Role.assistant)
      && wellFormedContext rest

/-- Rendering of one answer's message body in QueryView (README lines
192-253): an error box when `item.error` is truthy, otherwise a table
when `item.data` is a non-empty array, the no-results box when
`item.data` is an empty array, and nothing at all when `item.data` is
absent. -/
inductive AnswerRender where
  | errorBox (msg : String)
  | table (columns : Option (List String)) (rows : List (List CellValue))
  | noResults
  | nothing
  deriving DecidableEq, Repr

/-- JS truthiness of an optional string. -/
def truthy : Option String → Bool
  | none => false
  | some s => !(s = "")

/-- The answer branch of the transcript renderer. -/
def renderAnswer (data : Option (List (List CellValue)))
    (columns : Option (List String)) (error : Option String) : AnswerRender :=
  if truthy error then .errorBox (jsSplice error)
  else
    match data with
    | some rows => if 0 < rows.length then .table columns rows else .noResults
    | none => .nothing

/-- The two job kinds of ControlPanel. -/
inductive JobKind where
  | scrape
  | importJob
  deriving DecidableEq, Repr

/-- A job's status string in ControlPanel:
'idle' | 'loading' | 'success' | 'error'. -/
inductive JobStatus where
  | idle
  | loading
  | success
  | error
  deriving DecidableEq, Repr

/-- A pending `setTimeout(() => setXStatus('idle'), 3000)` callback:
when fired it sets the captured job's status to idle. -/
structure Timer where
  fireAt : ℕ
  job : JobKind
  deriving DecidableEq, Repr

/-- The health state held by ControlPanel (`setHealth` argument). -/
structure HealthData where
  status : String
  error : Option String
  deriving DecidableEq, Repr

/-- ControlPanel's state: `health`, `scrapeStatus`, `importStatus`,
`message`, plus the pending revert timers and a virtual millisecond
clock. -/
structure CPState where
  health : Option HealthData
  scrapeStatus : JobStatus
  importStatus : JobStatus
  message : String
  timers : List Timer
  now : ℕ
  deriving DecidableEq, Repr

/-- ControlPanel's initial state. -/
def initCPState : CPState := ⟨none, .idle, .idle, "", [], 0⟩

/-- One ControlPanel callback execution: the synchronous front half of a
trigger, the resolution of a trigger's awaited request, the resolution
of a health poll, or the passage of time (which fires due timers). -/
inductive CPEvent where
  | scrapeStart
  | scrapeOk (msg : String)
  | scrapeErr (e : JSErr)
  | importStart
  | importOk (msg : String)
  | importErr (e : JSErr)
  | healthOk (d : HealthData)
  | healthErr (msg : String)
  | advance (n : ℕ)
  deriving DecidableEq, Repr

/-- Run one due timer callback: `() => setScrapeStatus('idle')` or
`() => setImportStatus('idle')`. -/
def fireTimer (s : CPState) (t : Timer) : CPState :=
  match t.job with
  | .scrape => { s with scrapeStatus := .idle }
  | .importJob => { s with importStatus := .idle }

/-- Advance the clock by `n` ms and fire every timer that became due.
The source never stores or clears a timeout handle, so every pending
timer fires. -/
def advanceCP (s : CPState) (n : ℕ) : CPState :=
  (s.timers.filter (fun t => t.fireAt ≤ s.now + n)).foldl fireTimer
    { s with now := s.now + n,
             timers := s.timers.filter (fun t => s.now + n < t.fireAt) }

/-- A trigger catch branch's message:
`error.response?.data?.detail || fallback`. -/
def triggerErrMsg (fallback : String) (e : JSErr) : String :=
  jsOr e.detail fallback

/-- ControlPanel's transition function, one callback at a time,
translated from `checkHealth`, `triggerScrape` and `triggerImport`. -/
def stepCP (s : CPState) (ev : CPEvent) : CPState :=
  match ev with
  | .scrapeStart => { s with scrapeStatus := .loading, message := "" }
  | .scrapeOk m =>
    { s with message := m, scrapeStatus := .success,
             timers := s.timers ++ [⟨s.now + 3000, .scrape⟩] }
  | .scrapeErr e =>
    { s with message := triggerErrMsg "Failed to start scraper" e,
             scrapeStatus := .error,
             timers := s.timers ++ [⟨s.now + 3000, .scrape⟩] }
  | .importStart => { s with importStatus := .loading, message := "" }
  | .importOk m =>
    { s with message := m, importStatus := .success,
             timers := s.timers ++ [⟨s.now + 3000, .importJob⟩] }
  | .importErr e =>
    { s with message := triggerErrMsg "Failed to start importer" e,
             importStatus := .error,
             timers := s.timers ++ [⟨s.now + 3000, .importJob⟩] }
  | .healthOk d => { s with health := some d }
  | .healthErr m => { s with health := some ⟨"error", some m⟩ }
  | .advance n => advanceCP s n

/-- Run a sequence of ControlPanel callbacks. -/
def runCP (s : CPState) (evs : List CPEvent) : CPState :=
  evs.foldl stepCP s

/-- Events that are no part of the import job's lifecycle. -/
def scrapeSide : CPEvent → Bool
  | .importStart | .importOk _ | .importErr _ => false
  | _ => true

/-- Events that are no part of the scrape job's lifecycle. -/
def importSide : CPEvent → Bool
  | .scrapeStart | .scrapeOk _ | .scrapeErr _ => false
  | _ => true

/-- The health poll's two completion events. -/
def healthEvent : CPEvent → Bool
  | .healthOk _ | .healthErr _ => true
  | _ => false

/-- Modelled from the spec, for refinement comparison only: the claimed
three-level error-message preference order — server-supplied detail if
present, else the transport-level description, else the generic
fallback. -/
def specPreferredMessage (e : JSErr) (generic : String) : String :=
  match e.detail with
  | some d => d
  | none =>
    match e.message with
    | some m => m
    | none => generic

/-- Modelled from the spec's section 4.4 wording, for comparison: the
two-level order actually specified for job triggers — server-supplied
detail, else the fallback text. -/
def specTwoLevelMessage (e : JSErr) (generic : String) : String :=
  match e.detail with
  | some d => d
  | none => generic

/-- A date parser that fails on every input (a run in which no cell is a
parseable date). -/
def pdNone : CellValue → Option DateTime := fun _ => none

/-- A concrete successful payload used by witnesses. -/
def payload0 : Payload :=
  ⟨some "SELECT 1", some [], some ["StoreName"], none⟩

/-- A concrete idle session state with a typed question. -/
def qs0 : QState := ⟨"milk", false, [], []⟩

/-- A concrete busy session state (a question is in flight). -/
def qsBusy : QState := ⟨"", true, [Entry.question "milk"], []⟩

/-- A concrete idle session state whose input is whitespace only. -/
def qsSpaces : QState := ⟨"   ", false, [], []⟩

/-- A rejected request with no server detail but a transport
description. -/
def jsErrNet : JSErr := ⟨none, some "Network Error"⟩

/-- A rejected request carrying a server detail field. -/
def jsErrDetail : JSErr :=
  ⟨some "scraper busy", some "Request failed with status code 500"⟩

/-- A ControlPanel state with one pending scrape revert timer. -/
def cpScrapeTimer : CPState :=
  ⟨none, .success, .idle, "started", [⟨3000, .scrape⟩], 500⟩

/-- The retrigger-before-revert schedule: trigger the scraper, let it
succeed (scheduling a revert at 3000 ms), retrigger at 1000 ms, then let
2000 ms pass while the second request is still in flight. -/
def staleTimerTrace : List CPEvent :=
  [.scrapeStart, .scrapeOk "Scraper started", .advance 1000,
   .scrapeStart, .advance 2000]

/-! ### Helper lemmas -/

lemma pad2_spec : ∀ m, m < 100 → (pad2 m).length = 2 ∧ (pad2 m).data.all Char.isDigit = true := by
  decide

lemma digitChar_isDigit : ∀ m, m < 10 → (Nat.digitChar m).isDigit = true := by
  decide

lemma toDigitsCore_all_digits :
    ∀ (f n : ℕ) (l : List Char), (∀ c ∈ l, c.isDigit = true) →
      ∀ c ∈ Nat.toDigitsCore 10 f n l, c.isDigit = true := by
  intro f
  induction f with
  | zero =>
    intro n l hl c hc
    simp only [Nat.toDigitsCore] at hc
    exact hl c hc
  | succ f ih =>
    intro n l hl c hc
    simp only [Nat.toDigitsCore] at hc
    by_cases h : n / 10 = 0
    · rw [if_pos h] at hc
      rcases List.mem_cons.mp hc with rfl | hc
      · exact digitChar_isDigit _ (Nat.mod_lt _ (by norm_num))
      · exact hl c hc
    · rw [if_neg h] at hc
      refine ih (n / 10) _ ?_ c hc
      intro c hc
      rcases List.mem_cons.mp hc with rfl | hc
      · exact digitChar_isDigit _ (Nat.mod_lt _ (by norm_num))
      · exact hl c hc

lemma natRepr_all_digits (n : ℕ) : ∀ c ∈ (Nat.repr n).data, c.isDigit = true := by
  intro c hc
  have hdata : (Nat.repr n).data = Nat.toDigitsCore 10 (n + 1) n [] := rfl
  rw [hdata] at hc
  exact toDigitsCore_all_digits (n + 1) n [] (by intro c hc; cases hc) c hc

lemma all_digit_or_minus (l : List Char) (h : ∀ c ∈ l, c.isDigit = true) :
    l.all (fun c => c.isDigit || c == '-') = true := by
  rw [List.all_eq_true]
  intro c hc
  simp [h c hc]

lemma toFixed2IntPart_digits (q : ℚ) :
    ∀ c ∈ (toFixed2IntPart q).data, c.isDigit = true :=
  natRepr_all_digits ((round (q * 100) : ℤ).toNat / 100)

lemma toFixed2Frac_spec (q : ℚ) :
    (toFixed2Frac q).length = 2 ∧ (toFixed2Frac q).data.all Char.isDigit = true :=
  pad2_spec ((round (q * 100) : ℤ).toNat % 100) (Nat.mod_lt _ (by norm_num))

lemma jsToFixed2_69 : jsToFixed2 (69 / 10) = "6.90" := by
  have h0 : ¬((69 : ℚ) / 10 < 0) := by norm_num
  have h2 : ¬((10 : ℚ) ^ 21 ≤ 69 / 10) := by norm_num
  have h1 : round ((69 : ℚ) / 10 * 100) = 690 := by norm_num [round_eq]
  simp only [jsToFixed2, jsToFixed2Pos, toFixed2IntPart, toFixed2Frac,
    if_neg h0, if_neg h2, h1]
  decide

lemma jsToFixed2Pos_small (q : ℚ) (h : ¬(10 ^ 21 ≤ q)) :
    jsToFixed2Pos q = toFixed2IntPart q ++ "." ++ toFixed2Frac q := by
  rw [jsToFixed2Pos, if_neg h]

lemma wf_append_pair (q a : String) : ∀ c : List Turn, wellFormedContext c = true →
    wellFormedContext (c ++ [⟨Role.user, q⟩, ⟨Role.assistant, a⟩]) = true
  | [], _ => by simp [wellFormedContext]
  | [_], h => by simp [wellFormedContext] at h
  | u :: b :: rest, h => by
    simp only [wellFormedContext, Bool.and_eq_true, decide_eq_true_eq] at h
    simp only [List.cons_append, wellFormedContext, Bool.and_eq_true, decide_eq_true_eq]
    exact ⟨h.1, wf_append_pair q a rest h.2⟩

lemma wf_even : ∀ c : List Turn, wellFormedContext c = true → c.length % 2 = 0
  | [], _ => rfl
  | [_], h => by simp [wellFormedContext] at h
  | _ :: _ :: rest, h => by
    simp only [wellFormedContext, Bool.and_eq_true] at h
    have ih := wf_even rest h.2
    simp only [List.length_cons]
    omega

lemma submitComplete_context (q : String) (s : QState) (o : Outcome) :
    (submitComplete q s o).conversationHistory = s.conversationHistory ∨
    ∃ qq aa, (submitComplete q s o).conversationHistory
      = s.conversationHistory ++ [⟨Role.user, qq⟩, ⟨Role.assistant, aa⟩] := by
  cases o with
  | ok p => exact Or.inr ⟨q, assistantSummary q p.sql, rfl⟩
  | err e => exact Or.inl rfl

lemma submitOp_context (s : QState) (o : Outcome) :
    (submitOp s o).1.conversationHistory = s.conversationHistory ∨
    ∃ qq aa, (submitOp s o).1.conversationHistory
      = s.conversationHistory ++ [⟨Role.user, qq⟩, ⟨Role.assistant, aa⟩] := by
  by_cases hL : s.loading
  · left; simp [submitOp, hL]
  · by_cases hT : jsTrim s.question = ""
    · left; simp [submitOp, hL, handleSubmit, submitBegin, hT]
    · have hred : (submitOp s o).1
          = submitComplete s.question
              { s with question := "", loading := true,
                       history := s.history ++ [.question s.question] } o := by
        simp [submitOp, hL, handleSubmit, submitBegin, hT]
      rw [hred]
      exact submitComplete_context s.question _ o

lemma reach_wf : ∀ s : QState, ReachQ s → wellFormedContext s.conversationHistory = true := by
  intro s h
  induction h with
  | init => rfl
  | type s t _ ih =>
    by_cases hL : s.loading <;> simp only [typeQuestion, hL, if_true, if_false] <;> exact ih
  | submit s o _ ih =>
    rcases submitOp_context s o with h | ⟨qq, aa, h⟩
    · rw [h]; exact ih
    · rw [h]; exact wf_append_pair qq aa _ ih
  | complete q s o _ ih =>
    rcases submitComplete_context q s o with h | ⟨qq, aa, h⟩
    · rw [h]; exact ih
    · rw [h]; exact wf_append_pair qq aa _ ih
  | newConv s _ _ => rfl

lemma foldl_fireTimer_timers : ∀ (l : List Timer) (b : CPState),
    (l.foldl fireTimer b).timers = b.timers
  | [], _ => rfl
  | t :: ts, b => by
    rw [List.foldl_cons, foldl_fireTimer_timers ts]
    cases h : t.job <;> simp [fireTimer, h]

lemma foldl_fireTimer_import : ∀ (l : List Timer) (b : CPState),
    (∀ t ∈ l, t.job = JobKind.scrape) →
    (l.foldl fireTimer b).importStatus = b.importStatus
  | [], _, _ => rfl
  | t :: ts, b, h => by
    rw [List.foldl_cons,
        foldl_fireTimer_import ts _ (fun t ht => h t (List.mem_cons_of_mem _ ht))]
    have hj := h t (List.mem_cons_self t ts)
    simp [fireTimer, hj]

lemma foldl_fireTimer_scrape : ∀ (l : List Timer) (b : CPState),
    (∀ t ∈ l, t.job = JobKind.importJob) →
    (l.foldl fireTimer b).scrapeStatus = b.scrapeStatus
  | [], _, _ => rfl
  | t :: ts, b, h => by
    rw [List.foldl_cons,
        foldl_fireTimer_scrape ts _ (fun t ht => h t (List.mem_cons_of_mem _ ht))]
    have hj := h t (List.mem_cons_self t ts)
    simp [fireTimer, hj]

lemma stepCP_scrapeSide (s : CPState) (ev : CPEvent)
    (hev : scrapeSide ev = true)
    (ht : ∀ t ∈ s.timers, t.job = JobKind.scrape) :
    (stepCP s ev).importStatus = s.importStatus
    ∧ ∀ t ∈ (stepCP s ev).timers, t.job = JobKind.scrape := by
  cases ev with
  | scrapeStart => exact ⟨rfl, ht⟩
  | scrapeOk m =>
    refine ⟨rfl, fun t htm => ?_⟩
    rcases List.mem_append.mp htm with h | h
    · exact ht t h
    · simp only [List.mem_singleton] at h; rw [h]
  | scrapeErr e =>
    refine ⟨rfl, fun t htm => ?_⟩
    rcases List.mem_append.mp htm with h | h
    · exact ht t h
    · simp only [List.mem_singleton] at h; rw [h]
  | importStart => exact absurd hev (by simp [scrapeSide])
  | importOk m => exact absurd hev (by simp [scrapeSide])
  | importErr e => exact absurd hev (by simp [scrapeSide])
  | healthOk d => exact ⟨rfl, ht⟩
  | healthErr m => exact ⟨rfl, ht⟩
  | advance n =>
    constructor
    · show (advanceCP s n).importStatus = s.importStatus
      rw [advanceCP, foldl_fireTimer_import]
      intro t htd
      exact ht t (List.mem_of_mem_filter htd)
    · intro t htd
      have : (advanceCP s n).timers
          = s.timers.filter (fun t => s.now + n < t.fireAt) := by
        rw [advanceCP, foldl_fireTimer_timers]
      rw [show (stepCP s (CPEvent.advance n)).timers = (advanceCP s n).timers from rfl,
          this] at htd
      exact ht t (List.mem_of_mem_filter htd)

lemma stepCP_importSide (s : CPState) (ev : CPEvent)
    (hev : importSide ev = true)
    (ht : ∀ t ∈ s.timers, t.job = JobKind.importJob) :
    (stepCP s ev).scrapeStatus = s.scrapeStatus
    ∧ ∀ t ∈ (stepCP s ev).timers, t.job = JobKind.importJob := by
  cases ev with
  | importStart => exact ⟨rfl, ht⟩
  | importOk m =>
    refine ⟨rfl, fun t htm => ?_⟩
    rcases List.mem_append.mp htm with h | h
    · exact ht t h
    · simp only [List.mem_singleton] at h; rw [h]
  | importErr e =>
    refine ⟨rfl, fun t htm => ?_⟩
    rcases List.mem_append.mp htm with h | h
    · exact ht t h
    · simp only [List.mem_singleton] at h; rw [h]
  | scrapeStart => exact absurd hev (by simp [importSide])
  | scrapeOk m => exact absurd hev (by simp [importSide])
  | scrapeErr e => exact absurd hev (by simp [importSide])
  | healthOk d => exact ⟨rfl, ht⟩
  | healthErr m => exact ⟨rfl, ht⟩
  | advance n =>
    constructor
    · show (advanceCP s n).scrapeStatus = s.scrapeStatus
      rw [advanceCP, foldl_fireTimer_scrape]
      intro t htd
      exact ht t (List.mem_of_mem_filter htd)
    · intro t htd
      have : (advanceCP s n).timers
          = s.timers.filter (fun t => s.now + n < t.fireAt) := by
        rw [advanceCP, foldl_fireTimer_timers]
      rw [show (stepCP s (CPEvent.advance n)).timers = (advanceCP s n).timers from rfl,
          this] at htd
      exact ht t (List.mem_of_mem_filter htd)

lemma runCP_scrapeSide : ∀ (evs : List CPEvent) (s : CPState),
    (∀ ev ∈ evs, scrapeSide ev = true) →
    (∀ t ∈ s.timers, t.job = JobKind.scrape) →
    (runCP s evs).importStatus = s.importStatus
  | [], _, _, _ => rfl
  | ev :: evs, s, hev, ht => by
    have h1 := stepCP_scrapeSide s ev (hev ev (List.mem_cons_self _ _)) ht
    have h2 := runCP_scrapeSide evs (stepCP s ev)
      (fun e he => hev e (List.mem_cons_of_mem _ he)) h1.2
    show (runCP (stepCP s ev) evs).importStatus = s.importStatus
    rw [h2, h1.1]

lemma runCP_importSide : ∀ (evs : List CPEvent) (s : CPState),
    (∀ ev ∈ evs, importSide ev = true) →
    (∀ t ∈ s.timers, t.job = JobKind.importJob) →
    (runCP s evs).scrapeStatus = s.scrapeStatus
  | [], _, _, _ => rfl
  | ev :: evs, s, hev, ht => by
    have h1 := stepCP_importSide s ev (hev ev (List.mem_cons_self _ _)) ht
    have h2 := runCP_importSide evs (stepCP s ev)
      (fun e he => hev e (List.mem_cons_of_mem _ he)) h1.2
    show (runCP (stepCP s ev) evs).scrapeStatus = s.scrapeStatus
    rw [h2, h1.1]

/-! ### Claim theorems -/

/-- C1: for every query cycle that actually runs, the Transcript grows
by two entries on success and on failure alike, while the LLM-facing
Context is extended (by the user/assistant pair) only on success — on
every failure outcome the Context after the cycle equals the Context
before it. -/
theorem spec_c1_context_only_on_success :
    ∀ s : QState, s.loading = false → jsTrim s.question ≠ "" →
      (∀ e, (submitOp s (Outcome.err e)).1.conversationHistory = s.conversationHistory)
      ∧ (∀ p, (submitOp s (Outcome.ok p)).1.conversationHistory
          = s.conversationHistory
            ++ [⟨Role.user, s.question⟩, ⟨Role.assistant, assistantSummary s.question p.sql⟩])
      ∧ (∀ o, ((submitOp s o).1.history).length = s.history.length + 2) := by
  intro s hL hT
  refine ⟨?_, ?_, ?_⟩
  · intro e
    simp [submitOp, hL, handleSubmit, submitBegin, hT, submitComplete]
  · intro p
    simp [submitOp, hL, handleSubmit, submitBegin, hT, submitComplete]
  · intro o
    cases o <;> simp [submitOp, hL, handleSubmit, submitBegin, hT, submitComplete]

/-- C1 witness: a concrete idle state with a non-blank utterance, where
a network failure leaves the Context untouched. -/
theorem spec_c1_witness :
    qs0.loading = false ∧ jsTrim qs0.question ≠ ""
    ∧ (submitOp qs0 (Outcome.err jsErrNet)).1.conversationHistory
        = qs0.conversationHistory :=
  ⟨rfl, by decide, (spec_c1_context_only_on_success qs0 rfl (by decide)).1 jsErrNet⟩

/-- C2: the submit operation is a no-op — no request issued, no state
change at all — whenever `loading` is set (the `disabled={loading}`
re-submission guard) or the utterance is blank after trimming (the
`!question.trim()` guard). -/
theorem spec_c2_noop_guards :
    (∀ s o, s.loading = true → submitOp s o = (s, false))
    ∧ (∀ s o, jsTrim s.question = "" → submitOp s o = (s, false)) := by
  constructor
  · intro s o h
    simp [submitOp, h]
  · intro s o h
    by_cases hL : s.loading
    · simp [submitOp, hL]
    · simp [submitOp, hL, handleSubmit, submitBegin, h]

/-- C2 witness: a busy state and a whitespace-only utterance, both left
entirely unchanged with no request sent. -/
theorem spec_c2_witness :
    qsBusy.loading = true
    ∧ submitOp qsBusy (Outcome.err jsErrNet) = (qsBusy, false)
    ∧ jsTrim qsSpaces.question = ""
    ∧ submitOp qsSpaces (Outcome.ok payload0) = (qsSpaces, false) :=
  ⟨rfl, spec_c2_noop_guards.1 qsBusy (Outcome.err jsErrNet) rfl, by decide,
   spec_c2_noop_guards.2 qsSpaces (Outcome.ok payload0) (by decide)⟩

/-- C4: for every non-blank utterance submitted while not busy, the
question entry is appended before the request is issued (the request
carries the utterance and the Context snapshot), and after the cycle —
success or failure — the Transcript has gained exactly the question
entry followed by exactly one answer entry, with `loading` back to
false. -/
theorem spec_c4_cycle_shape :
    ∀ s : QState, s.loading = false → jsTrim s.question ≠ "" →
      (submitBegin s).1.history = s.history ++ [Entry.question s.question]
      ∧ (submitBegin s).2 = some ⟨s.question, s.conversationHistory⟩
      ∧ (submitBegin s).1.loading = true
      ∧ ∀ o, (submitOp s o).2 = true
          ∧ (submitOp s o).1.loading = false
          ∧ (submitOp s o).1.history
              = s.history ++ [Entry.question s.question, answerOf s.question o] := by
  intro s hL hT
  refine ⟨by simp [submitBegin, hT], by simp [submitBegin, hT], by simp [submitBegin, hT], ?_⟩
  intro o
  cases o with
  | ok p =>
    refine ⟨?_, ?_, ?_⟩ <;>
      simp [submitOp, hL, handleSubmit, submitBegin, hT, submitComplete]
  | err e =>
    refine ⟨?_, ?_, ?_⟩ <;>
      simp [submitOp, hL, handleSubmit, submitBegin, hT, submitComplete]

/-- C4 witness: a concrete cycle on the utterance "milk" with a
successful payload. -/
theorem spec_c4_witness :
    qs0.loading = false ∧ jsTrim qs0.question ≠ ""
    ∧ (submitOp qs0 (Outcome.ok payload0)).2 = true
    ∧ (submitOp qs0 (Outcome.ok payload0)).1.loading = false
    ∧ (submitOp qs0 (Outcome.ok payload0)).1.history
        = qs0.history ++ [Entry.question qs0.question,
                          answerOf qs0.question (Outcome.ok payload0)] :=
  ⟨rfl, by decide,
   (spec_c4_cycle_shape qs0 rfl (by decide)).2.2.2 (Outcome.ok payload0)⟩

/-- C3: the retrigger-before-revert schedule. After the first scrape
cycle succeeds (revert timer set for 3000 ms) and the scraper is
retriggered at 1000 ms, the status is `loading` with the second request
still in flight; but once the superseded cycle's timer fires at
3000 ms, the status has been reverted to `idle` prematurely — and no
timer of the newer cycle is pending. The source never stores or clears
a `setTimeout` handle, so the stale timer is never invalidated. -/
theorem spec_c3_stale_timer_reverts :
    (runCP initCPState (staleTimerTrace.take 4)).scrapeStatus = JobStatus.loading
    ∧ (runCP initCPState staleTimerTrace).scrapeStatus = JobStatus.idle
    ∧ (runCP initCPState staleTimerTrace).timers = [] := by
  decide

/-- C5 counterexample: the numeric cell 10^21 in the ItemPrice column.
ECMAScript `toFixed(2)` returns ToString(x) for x at or above 10^21, so
the rendered string is the exponential "1e+21" — it contains no dot at
all, hence is not of the fixed-point form pre-dot-two-digits the claim
asserts for every numeric price cell. -/
theorem spec_c5_counterexample :
    renderCellE pdNone (CellValue.num (10 ^ 21)) "ItemPrice" = .ok "1e+21"
    ∧ ∀ pre frac : String, pre ++ "." ++ frac ≠ "1e+21" := by
  constructor
  · have hr : renderCellE pdNone (CellValue.num (10 ^ 21)) "ItemPrice"
        = .ok (jsToFixed2 (10 ^ 21)) := rfl
    have h0 : ¬((10 ^ 21 : ℚ) < 0) := by norm_num
    have h1 : ((10 ^ 21 : ℚ) ≤ 10 ^ 21) := le_refl _
    have h2 : Int.floor ((10 ^ 21 : ℚ)) = 1000000000000000000000 := by norm_num
    rw [hr, jsToFixed2, if_neg h0, jsToFixed2Pos, if_pos h1, h2]
    exact congrArg Except.ok (by decide)
  · intro pre frac h
    have hd : (pre.data ++ ".".data) ++ frac.data = ("1e+21" : String).data := by
      rw [← String.data_append, ← String.data_append, h]
    have hmem : ('.' : Char) ∈ (pre.data ++ ".".data) ++ frac.data :=
      List.mem_append.mpr (Or.inl (List.mem_append.mpr (Or.inr (by decide))))
    rw [hd] at hmem
    exact absurd hmem (by decide)

/-- C5 amended: the formatter maps a null cell to the "N/A" sentinel
for every column name; in a recognized price column every numeric cell
of magnitude below 10^21 renders as sign and digits, a dot, and exactly
two decimal digits (fixed-point, no exponent marker) — at or above
10^21 `toFixed` instead returns ECMAScript ToString's exponential
notation — and the numeric cell 6.9 in the ItemPrice column formats to
"6.90". -/
theorem spec_c5_amended :
    (∀ pd colName, renderCellE pd CellValue.null colName = .ok "N/A")
    ∧ (∀ pd colName q, isPriceCol colName = true →
        -(10 ^ 21) < q → q < 10 ^ 21 →
        ∃ pre frac,
          renderCellE pd (CellValue.num q) colName = .ok (pre ++ "." ++ frac)
          ∧ frac.length = 2
          ∧ frac.data.all Char.isDigit = true
          ∧ pre.data.all (fun c => c.isDigit || c == '-') = true)
    ∧ (∀ pd, renderCellE pd (CellValue.num (69 / 10)) "ItemPrice" = .ok "6.90") := by
  refine ⟨fun pd colName => rfl, ?_, ?_⟩
  · intro pd colName q h hlow hhigh
    have hr : renderCellE pd (CellValue.num q) colName = .ok (jsToFixed2 q) := by
      simp [renderCellE, h]
    by_cases hq : q < 0
    · have hbig : ¬(10 ^ 21 ≤ -q) := not_le.mpr (by linarith)
      refine ⟨"-" ++ toFixed2IntPart (-q), toFixed2Frac (-q), ?_, (toFixed2Frac_spec (-q)).1,
        (toFixed2Frac_spec (-q)).2, ?_⟩
      · rw [hr, jsToFixed2, if_pos hq, jsToFixed2Pos_small (-q) hbig,
          ← String.append_assoc, ← String.append_assoc]
      · have hdata : ("-" ++ toFixed2IntPart (-q)).data
            = '-' :: (toFixed2IntPart (-q)).data := by
          rw [String.data_append]
          rfl
        rw [List.all_eq_true]
        intro c hc
        rw [hdata] at hc
        rcases List.mem_cons.mp hc with rfl | hc
        · decide
        · simp [toFixed2IntPart_digits (-q) c hc]
    · have hbig : ¬(10 ^ 21 ≤ q) := not_le.mpr hhigh
      refine ⟨toFixed2IntPart q, toFixed2Frac q, ?_, (toFixed2Frac_spec q).1,
        (toFixed2Frac_spec q).2, ?_⟩
      · rw [hr, jsToFixed2, if_neg hq, jsToFixed2Pos_small q hbig]
      · exact all_digit_or_minus _ (toFixed2IntPart_digits q)
  · intro pd
    have hr : renderCellE pd (CellValue.num (69 / 10)) "ItemPrice"
        = .ok (jsToFixed2 (69 / 10)) := rfl
    rw [hr, jsToFixed2_69]

/-- C5 witness: the price column "price" with the numeric cell 3, well
below the 10^21 ToString threshold. -/
theorem spec_c5_witness :
    isPriceCol "price" = true
    ∧ (-(10 ^ 21) : ℚ) < 3 ∧ (3 : ℚ) < 10 ^ 21
    ∧ ∃ pre frac,
        renderCellE pdNone (CellValue.num 3) "price" = .ok (pre ++ "." ++ frac)
        ∧ frac.length = 2
        ∧ frac.data.all Char.isDigit = true
        ∧ pre.data.all (fun c => c.isDigit || c == '-') = true :=
  ⟨by decide, by norm_num, by norm_num,
   spec_c5_amended.2.1 pdNone "price" 3 (by decide) (by norm_num) (by norm_num)⟩

/-- C6: the cell renderer is total — for every parser, cell and column
it completes with a displayed string, never an uncaught throw — and for
a recognized timestamp column whose value fails to parse as a date it
falls back to the value's literal string form. -/
theorem spec_c6_formatter_total :
    (∀ pd cell colName, ∃ s, renderCellE pd cell colName = Except.ok s)
    ∧ (∀ pd str colName, isDateCol colName = true →
        pd (CellValue.str str) = none →
        renderCellE pd (CellValue.str str) colName = .ok str)
    ∧ (∀ pd q colName, isDateCol colName = true → isPriceCol colName = false →
        pd (CellValue.num q) = none →
        renderCellE pd (CellValue.num q) colName
          = .ok (jsString (CellValue.num q))) := by
  refine ⟨?_, ?_, ?_⟩
  · intro pd cell colName
    cases cell with
    | null => exact ⟨"N/A", rfl⟩
    | num q =>
      by_cases h1 : isPriceCol colName = true
      · exact ⟨jsToFixed2 q, by simp [renderCellE, h1]⟩
      · by_cases h2 : isDateCol colName = true
        · cases hpd : pd (CellValue.num q) with
          | none =>
            exact ⟨jsString (CellValue.num q),
              by simp [renderCellE, h1, h2, hpd, tryCatchE, dateFnsFormat]⟩
          | some d =>
            exact ⟨zp2 d.day ++ "/" ++ zp2 d.month ++ "/" ++ zp4 d.year ++ " "
                     ++ zp2 d.hour ++ ":" ++ zp2 d.minute,
              by simp [renderCellE, h1, h2, hpd, tryCatchE, dateFnsFormat]⟩
        · exact ⟨jsString (CellValue.num q), by simp [renderCellE, h1, h2]⟩
    | str str =>
      by_cases h2 : isDateCol colName = true
      · cases hpd : pd (CellValue.str str) with
        | none =>
          exact ⟨jsString (CellValue.str str),
            by simp [renderCellE, h2, hpd, tryCatchE, dateFnsFormat]⟩
        | some d =>
          exact ⟨zp2 d.day ++ "/" ++ zp2 d.month ++ "/" ++ zp4 d.year ++ " "
                   ++ zp2 d.hour ++ ":" ++ zp2 d.minute,
            by simp [renderCellE, h2, hpd, tryCatchE, dateFnsFormat]⟩
      · exact ⟨jsString (CellValue.str str), by simp [renderCellE, h2]⟩
  · intro pd str colName h2 hpd
    simp [renderCellE, h2, hpd, tryCatchE, dateFnsFormat, jsString]
  · intro pd q colName h2 h1 hpd
    simp [renderCellE, h1, h2, hpd, tryCatchE, dateFnsFormat]

/-- C6 witness: the unparseable string "2025-13-99 xx:yy" in the
LastUpdate column renders as its own literal text. -/
theorem spec_c6_witness :
    isDateCol "LastUpdate" = true
    ∧ pdNone (CellValue.str "2025-13-99 xx:yy") = none
    ∧ renderCellE pdNone (CellValue.str "2025-13-99 xx:yy") "LastUpdate"
        = .ok "2025-13-99 xx:yy" :=
  ⟨by decide, rfl,
   spec_c6_formatter_total.2.1 pdNone "2025-13-99 xx:yy" "LastUpdate" (by decide) rfl⟩

/-- C7: a health-poll completion never changes either job's status; and
any run made of one job kind's lifecycle callbacks (trigger front half,
request resolution, passage of time firing that kind's revert timers)
interleaved with health polls leaves the other job kind's status equal
to its prior value throughout. -/
theorem spec_c7_frame :
    (∀ s ev, healthEvent ev = true →
        (stepCP s ev).scrapeStatus = s.scrapeStatus
        ∧ (stepCP s ev).importStatus = s.importStatus)
    ∧ (∀ s evs, (∀ ev ∈ evs, scrapeSide ev = true) →
        (∀ t ∈ s.timers, t.job = JobKind.scrape) →
        (runCP s evs).importStatus = s.importStatus)
    ∧ (∀ s evs, (∀ ev ∈ evs, importSide ev = true) →
        (∀ t ∈ s.timers, t.job = JobKind.importJob) →
        (runCP s evs).scrapeStatus = s.scrapeStatus) := by
  refine ⟨?_, fun s evs hev ht => runCP_scrapeSide evs s hev ht,
    fun s evs hev ht => runCP_importSide evs s hev ht⟩
  intro s ev h
  cases ev with
  | healthOk d => exact ⟨rfl, rfl⟩
  | healthErr m => exact ⟨rfl, rfl⟩
  | scrapeStart => exact absurd h (by simp [healthEvent])
  | scrapeOk m => exact absurd h (by simp [healthEvent])
  | scrapeErr e => exact absurd h (by simp [healthEvent])
  | importStart => exact absurd h (by simp [healthEvent])
  | importOk m => exact absurd h (by simp [healthEvent])
  | importErr e => exact absurd h (by simp [healthEvent])
  | advance n => exact absurd h (by simp [healthEvent])

/-- C7 witness: a scrape retrigger plus enough time for its pending
revert timer to fire leaves the import status untouched, and a failed
health poll leaves the scrape status untouched. -/
theorem spec_c7_witness :
    (runCP cpScrapeTimer [CPEvent.scrapeStart, CPEvent.advance 4000]).importStatus
      = cpScrapeTimer.importStatus
    ∧ (stepCP initCPState (CPEvent.healthErr "Network Error")).scrapeStatus
        = initCPState.scrapeStatus :=
  ⟨spec_c7_frame.2.1 cpScrapeTimer [CPEvent.scrapeStart, CPEvent.advance 4000]
      (by decide) (by decide),
   (spec_c7_frame.1 initCPState (CPEvent.healthErr "Network Error") rfl).1⟩

/-- C8 counterexample: an answer with neither a result set nor an error
message renders nothing at all — not the "no results" indicator the
claim requires for this "empty success" case. -/
theorem spec_c8_counterexample :
    renderAnswer none none none = AnswerRender.nothing
    ∧ AnswerRender.nothing ≠ AnswerRender.noResults := by
  decide

/-- C8 amended: a successful answer with a present but empty result set
renders the distinct "no results" indicator (neither a table nor an
error box, which are different constructors); an answer with both
result set and error absent renders none of table, error box, or
indicator. -/
theorem spec_c8_amended :
    (∀ columns error, truthy error = false →
        renderAnswer (some []) columns error = AnswerRender.noResults)
    ∧ (∀ columns, renderAnswer none columns none = AnswerRender.nothing) := by
  constructor
  · intro columns error h
    simp [renderAnswer, h]
  · intro columns
    rfl

/-- C8 witness: a zero-row success with columns present renders the
indicator. -/
theorem spec_c8_witness :
    truthy none = false
    ∧ renderAnswer (some []) (some ["StoreName"]) none = AnswerRender.noResults :=
  ⟨rfl, spec_c8_amended.1 (some ["StoreName"]) none rfl⟩

/-- C9 counterexample: on a scrape-trigger failure with no server
detail but a transport-level description ("Network Error"), the code
records the generic fallback, not the transport description the claimed
three-level preference order requires. -/
theorem spec_c9_counterexample :
    (stepCP initCPState (CPEvent.scrapeErr jsErrNet)).message
      = "Failed to start scraper"
    ∧ specPreferredMessage jsErrNet "Failed to start scraper" = "Network Error"
    ∧ (stepCP initCPState (CPEvent.scrapeErr jsErrNet)).message
        ≠ specPreferredMessage jsErrNet "Failed to start scraper" := by
  decide

/-- C9 amended: a query failure records
detail-else-transport-description-else-generic (matching the claimed
three-level order whenever present fields are non-empty), while a
job-trigger failure records only detail-else-fixed-fallback — the
transport description is never consulted for triggers. -/
theorem spec_c9_amended :
    (∀ s q e, (submitComplete q s (Outcome.err e)).history
        = s.history ++ [Entry.answer none none none none (some (queryErrMsg e))])
    ∧ (∀ e, (∀ d, e.detail = some d → d ≠ "") → (∀ m, e.message = some m → m ≠ "") →
        queryErrMsg e = specPreferredMessage e "Failed to process query")
    ∧ (∀ s e, (stepCP s (CPEvent.scrapeErr e)).message
        = triggerErrMsg "Failed to start scraper" e)
    ∧ (∀ s e, (stepCP s (CPEvent.importErr e)).message
        = triggerErrMsg "Failed to start importer" e)
    ∧ (∀ e fallback, (∀ d, e.detail = some d → d ≠ "") →
        triggerErrMsg fallback e = specTwoLevelMessage e fallback) := by
  refine ⟨?_, ?_, fun s e => rfl, fun s e => rfl, ?_⟩
  · intro s q e
    simp [submitComplete, answerOf]
  · intro e hd hm
    rcases e with ⟨d, m⟩
    cases d with
    | none =>
      cases m with
      | none => rfl
      | some mv =>
        have : mv ≠ "" := hm mv rfl
        simp [queryErrMsg, jsOr, specPreferredMessage, this]
    | some dv =>
      have : dv ≠ "" := hd dv rfl
      simp [queryErrMsg, jsOr, specPreferredMessage, this]
  · intro e fallback hd
    rcases e with ⟨d, m⟩
    cases d with
    | none => rfl
    | some dv =>
      have : dv ≠ "" := hd dv rfl
      simp [triggerErrMsg, jsOr, specTwoLevelMessage, this]

/-- C9 witness: a failure carrying the server detail "scraper busy"
records it, for the query path and the trigger path alike. -/
theorem spec_c9_witness :
    queryErrMsg jsErrDetail = specPreferredMessage jsErrDetail "Failed to process query"
    ∧ triggerErrMsg "Failed to start scraper" jsErrDetail
        = specTwoLevelMessage jsErrDetail "Failed to start scraper" :=
  ⟨spec_c9_amended.2.1 jsErrDetail
      (fun d h => by injection h with h2; rw [← h2]; decide)
      (fun m h => by injection h with h2; rw [← h2]; decide),
   spec_c9_amended.2.2.2.2 jsErrDetail "Failed to start scraper"
      (fun d h => by injection h with h2; rw [← h2]; decide)⟩

/-- C10: in every reachable session state the LLM-facing Context is a
sequence of consecutive (user, assistant) pairs — it strictly
alternates starting with a user turn and has even length — and each
operation either leaves the Context unchanged, appends exactly one such
pair, or resets it to empty. -/
theorem spec_c10_context_invariant :
    (∀ s, ReachQ s → wellFormedContext s.conversationHistory = true
        ∧ s.conversationHistory.length % 2 = 0)
    ∧ (∀ s o, (submitOp s o).1.conversationHistory = s.conversationHistory
        ∨ ∃ q a, (submitOp s o).1.conversationHistory
            = s.conversationHistory ++ [⟨Role.user, q⟩, ⟨Role.assistant, a⟩])
    ∧ (∀ s, (handleNewConversation s).conversationHistory = []) :=
  ⟨fun s h => ⟨reach_wf s h, wf_even _ (reach_wf s h)⟩,
   submitOp_context, fun _ => rfl⟩

/-- C10 witness: the state reached by a stale completion applied after
session start is well-formed. -/
theorem spec_c10_witness :
    wellFormedContext
      (submitComplete "milk" initQState (Outcome.ok payload0)).conversationHistory = true
    ∧ (submitComplete "milk" initQState
        (Outcome.ok payload0)).conversationHistory.length % 2 = 0 :=
  spec_c10_context_invariant.1 _
    (ReachQ.complete "milk" initQState (Outcome.ok payload0) ReachQ.init)
